import Mathlib

/-!
Shallow embedding of the CAN ping-pong firmware (src/src/main.cpp).

The firmware is single-threaded; hardware calls (MCP2515 driver, millis
clock) are fallible externals.  We model each handler as a pure function
taking the hardware outcomes (an oracle environment) together with the
global link state, and returning the new state plus observable effects
(reinit calls issued, overflow clears, log events, frames sent).
Machine integers are Nat with explicit reduction: timestamps are uint32
(mod 2^32), counters and payload bytes are uint8 (mod 2^8).
-/

namespace CanTest

/-- Modulus for uint32 timestamp arithmetic. -/
def U32 : Nat := 4294967296

/-- Modulus for uint8 counters and bytes. -/
def U8 : Nat := 256

/-- Wrap-safe unsigned 32-bit subtraction, as computed by
`uint32 now - uint32 last` in C. -/
def sub32 (a b : Nat) : Nat := ((a % U32) + U32 - (b % U32)) % U32

-- CAN identifiers for the bidirectional ping-pong test
def ESP_PING_ID : Nat := 0x123
def ESP_PONG_ID : Nat := 0x124
def PI_PING_ID  : Nat := 0x223
def PI_PONG_ID  : Nat := 0x224

-- Timing and robustness parameters
def PING_PERIOD_MS : Nat := 1000
def ACTIVITY_TIMEOUT_MS : Nat := 5000
def ERROR_REINIT_LIMIT : Nat := 5
def HEALTH_CHECK_PERIOD_MS : Nat := 200

-- MCP2515 EFLG bit masks (per datasheet)
def EFLG_RX1OVR : Nat := 0x80
def EFLG_RX0OVR : Nat := 0x40
def EFLG_TXBO   : Nat := 0x20
def EFLG_TXEP   : Nat := 0x10
def EFLG_RXEP   : Nat := 0x08
def EFLG_TXWAR  : Nat := 0x04
def EFLG_RXWAR  : Nat := 0x02
def EFLG_EWARN  : Nat := 0x01

/-- A CAN frame: identifier, data length code, and payload bytes.
The payload is modelled as a total function from byte index to byte
value; only indices below `can_dlc` (at most 8) are meaningful. -/
structure CanFrame where
  can_id : Nat
  can_dlc : Nat
  data : Nat → Nat

/-- The firmware's global link state (the file-scope mutable variables
of main.cpp that carry protocol and supervision state). -/
structure LinkState where
  lastEspPingSent : CanFrame
  hasLastEspPing : Bool
  canIntPending : Bool
  espPingCounter : Nat
  lastPingMillis : Nat
  lastActivityMs : Nat
  consecutiveSendErrors : Nat
  consecutivePassiveErrors : Nat
  lastHealthCheckMs : Nat

/-- Build the fixed test payload with a simple counter for verification
(main.cpp buildPattern).  `counter` is a uint8 parameter, hence the
mod-256 reductions at the byte stores. -/
def buildPattern (id : Nat) (counter : Nat) : CanFrame :=
  { can_id := id
    can_dlc := 8
    data := fun i =>
      if i = 0 then counter % U8
      else if i = 1 then (Nat.xor (counter % U8) 0xFF) % U8
      else if i = 2 then 0x55
      else if i = 3 then 0xAA
      else if i = 4 then 0xC3
      else if i = 5 then 0x3C
      else if i = 6 then 0x5A
      else if i = 7 then 0xA5
      else 0 }

/-- main.cpp patternMatches: length must be 8 and the payload must
satisfy the fixed derivation from byte 0. -/
def patternMatches (frame : CanFrame) : Bool :=
  if frame.can_dlc ≠ 8 then false
  else
    (frame.data 1 == (Nat.xor (frame.data 0) 0xFF) % U8) &&
    (frame.data 2 == 0x55) &&
    (frame.data 3 == 0xAA) &&
    (frame.data 4 == 0xC3) &&
    (frame.data 5 == 0x3C) &&
    (frame.data 6 == 0x5A) &&
    (frame.data 7 == 0xA5)

/-- main.cpp framesEqual: equal declared lengths, then byte-wise equal
payload over the first `can_dlc` bytes. -/
def framesEqual (a b : CanFrame) : Bool :=
  if a.can_dlc ≠ b.can_dlc then false
  else (List.range a.can_dlc).all fun i => a.data i == b.data i

/-- Spec-side statement of byte-for-byte frame equality (equal declared
lengths and identical payload bytes over that length), for comparison
with the code's framesEqual. -/
def framesEqSpec (a b : CanFrame) : Prop :=
  a.can_dlc = b.can_dlc ∧ ∀ i, i < a.can_dlc → a.data i = b.data i

/-- Hardware outcomes consumed by one initCan call: results of
setBitrate and setNormalMode, and the millis() readings taken when the
activity and health timestamps are refreshed. -/
structure InitEnv where
  bitrateOk : Bool
  modeOk : Bool
  tActivity : Nat
  tHealth : Nat

/-- main.cpp initCan.  Returns whether the controller came up, and the
new link state.  On a setBitrate or setNormalMode failure it returns
early, leaving every link-state variable untouched; on success it
resets counters and flags and refreshes the two timestamps. -/
def initCan (env : InitEnv) (s : LinkState) : Bool × LinkState :=
  if env.bitrateOk = false then (false, s)
  else if env.modeOk = false then (false, s)
  else
    (true,
      { s with
        consecutiveSendErrors := 0
        lastActivityMs := env.tActivity % U32
        hasLastEspPing := false
        canIntPending := false
        consecutivePassiveErrors := 0
        lastHealthCheckMs := env.tHealth % U32 })

/-- main.cpp sendFrame.  `frame` is handed to the driver; `sendOk` is
the driver's result and `t` the millis() reading on success. -/
def sendFrame (frame : CanFrame) (sendOk : Bool) (t : Nat) (s : LinkState) : LinkState :=
  if sendOk then
    { s with consecutiveSendErrors := 0, lastActivityMs := t % U32 }
  else
    { s with consecutiveSendErrors := (s.consecutiveSendErrors + 1) % U8 }

/-- main.cpp recoverIfStalled.  The second component counts initCan
invocations performed (0 or 1). -/
def recoverIfStalled (now : Nat) (env : InitEnv) (s : LinkState) : LinkState × Nat :=
  if ERROR_REINIT_LIMIT ≤ s.consecutiveSendErrors then
    match initCan env s with
    | (true, s2) => ({ s2 with consecutiveSendErrors := 0 }, 1)
    | (false, s2) => (s2, 1)
  else if ACTIVITY_TIMEOUT_MS < sub32 now s.lastActivityMs ∧ 0 < s.consecutiveSendErrors then
    ((initCan env s).2, 1)
  else
    (s, 0)

/-- Result of one handleHealth poll: new state, number of initCan
invocations, and whether a clearRXnOVR command was issued. -/
structure HealthOut where
  state : LinkState
  reinits : Nat
  ovrCleared : Bool

/-- main.cpp handleHealth.  `flags` is the EFLG register byte read from
the controller; `env` supplies the outcomes of an initCan call if one is
made.  The EWARN branch only logs, so it leaves the state unchanged. -/
def handleHealth (now : Nat) (flags : Nat) (env : InitEnv) (s : LinkState) : HealthOut :=
  if sub32 now s.lastHealthCheckMs < HEALTH_CHECK_PERIOD_MS then
    { state := s, reinits := 0, ovrCleared := false }
  else
    let s1 : LinkState := { s with lastHealthCheckMs := now % U32 }
    let ovr : Bool := Nat.land flags (Nat.lor EFLG_RX0OVR EFLG_RX1OVR) ≠ 0
    if Nat.land flags EFLG_TXBO ≠ 0 then
      { state := (initCan env s1).2, reinits := 1, ovrCleared := ovr }
    else if Nat.land flags (Nat.lor EFLG_TXEP EFLG_RXEP) ≠ 0 then
      let s2 : LinkState :=
        { s1 with consecutivePassiveErrors := (s1.consecutivePassiveErrors + 1) % U8 }
      if 3 ≤ s2.consecutivePassiveErrors then
        { state := (initCan env s2).2, reinits := 1, ovrCleared := ovr }
      else
        { state := s2, reinits := 0, ovrCleared := ovr }
    else
      { state := { s1 with consecutivePassiveErrors := 0 }, reinits := 0, ovrCleared := ovr }

/-- Log lines emitted by processRxFrame. -/
inductive LogEvent where
  | matchedEsp
  | mismatchEsp
  | matchedPi
  | mismatchPi
deriving DecidableEq, Repr

/-- Result of processRxFrame: new state, log events, frames sent. -/
structure RxOut where
  state : LinkState
  logs : List LogEvent
  sent : List CanFrame

/-- main.cpp processRxFrame.  On the ESP pong identifier it compares the
frame against the remembered last ping; on the Pi ping identifier it
validates the pattern (logging only) and unconditionally echoes a pong
copy with only the identifier changed, via sendFrame.  `sendOk` and `t`
are the driver outcome and millis() reading for that send. -/
def processRxFrame (frame : CanFrame) (sendOk : Bool) (t : Nat) (s : LinkState) : RxOut :=
  if frame.can_id = ESP_PONG_ID then
    if s.hasLastEspPing && framesEqual s.lastEspPingSent frame then
      { state := s, logs := [LogEvent.matchedEsp], sent := [] }
    else
      { state := s, logs := [LogEvent.mismatchEsp], sent := [] }
  else if frame.can_id = PI_PING_ID then
    let lg : LogEvent := if patternMatches frame then LogEvent.matchedPi else LogEvent.mismatchPi
    let pong : CanFrame := { frame with can_id := PI_PONG_ID }
    { state := sendFrame pong sendOk t s, logs := [lg], sent := [pong] }
  else
    { state := s, logs := [], sent := [] }

/-- Per-drained-frame hardware outcomes: the millis() reading used to
refresh the activity timestamp, and the send outcome/time should the
frame trigger an echoed pong. -/
structure RxEnv where
  timeMs : Nat
  sendOk : Bool
  sendTime : Nat

/-- The read-until-empty drain of the loop body: each iteration pops the
next buffered frame, refreshes the activity timestamp, and dispatches
the frame to processRxFrame.  Returns the final state and the dispatch
trace: for each dispatched frame, the activity timestamp in force when
it was handed to processRxFrame, paired with the frame. -/
def drainLoop (buf : List CanFrame) (envs : Nat → RxEnv) (k : Nat) (s : LinkState) :
    LinkState × List (Nat × CanFrame) :=
  match buf with
  | [] => (s, [])
  | f :: rest =>
    let e := envs k
    let s1 : LinkState := { s with lastActivityMs := e.timeMs % U32 }
    let s2 := (processRxFrame f e.sendOk e.sendTime s1).state
    let r := drainLoop rest envs (k + 1) s2
    (r.1, (s1.lastActivityMs, f) :: r.2)

/-- The controller side of the world: link state plus the frames
currently buffered in the controller receive FIFO, in arrival order. -/
structure World where
  link : LinkState
  rxBuf : List CanFrame

/-- The reception part of main.cpp loop(): if the interrupt signal is
pending or the polled checkReceive reports data (`chkData`), clear the
signal and drain all buffered frames. -/
def rxPhase (chkData : Bool) (envs : Nat → RxEnv) (w : World) :
    World × List (Nat × CanFrame) :=
  if w.link.canIntPending || chkData then
    let s0 : LinkState := { w.link with canIntPending := false }
    let r := drainLoop w.rxBuf envs 0 s0
    ({ link := r.1, rxBuf := [] }, r.2)
  else
    (w, [])

/-- The ESP-initiated ping part of main.cpp loop(): when the ping period
has elapsed, build the pattern frame, send it, remember it as the last
self ping, and bump the counter. -/
def pingPhase (now : Nat) (sendOk : Bool) (t : Nat) (s : LinkState) : LinkState :=
  if PING_PERIOD_MS ≤ sub32 now s.lastPingMillis then
    let s1 : LinkState := { s with lastPingMillis := now % U32 }
    let ping := buildPattern ESP_PING_ID s1.espPingCounter
    let s2 := sendFrame ping sendOk t s1
    { s2 with
      lastEspPingSent := ping
      hasLastEspPing := true
      espPingCounter := (s2.espPingCounter + 1) % U8 }
  else s

/-- Oracle inputs for one full loop() iteration. -/
structure LoopEnv where
  now : Nat
  pingOk : Bool
  pingTime : Nat
  chkData : Bool
  rxEnvs : Nat → RxEnv
  healthFlags : Nat
  healthEnv : InitEnv
  recoverEnv : InitEnv

/-- One iteration of main.cpp loop(): ping phase, receive drain, health
poll, stall recovery (the idle backoff delay has no state effect). -/
def loopBody (e : LoopEnv) (w : World) : World :=
  let s1 := pingPhase e.now e.pingOk e.pingTime w.link
  let r2 := rxPhase e.chkData e.rxEnvs { link := s1, rxBuf := w.rxBuf }
  let s3 := (handleHealth e.now e.healthFlags e.healthEnv r2.1.link).state
  let s4 := (recoverIfStalled e.now e.recoverEnv s3).1
  { link := s4, rxBuf := r2.1.rxBuf }

/-- A concrete empty frame used by concrete witness states. -/
def frame0 : CanFrame := { can_id := 0, can_dlc := 0, data := fun _ => 0 }

/-- A concrete baseline link state for witnesses. -/
def sBase : LinkState :=
  { lastEspPingSent := frame0
    hasLastEspPing := false
    canIntPending := false
    espPingCounter := 0
    lastPingMillis := 0
    lastActivityMs := 0
    consecutiveSendErrors := 0
    consecutivePassiveErrors := 0
    lastHealthCheckMs := 0 }

/-- A concrete initialization environment where the controller accepts
both configuration steps. -/
def envOk : InitEnv := { bitrateOk := true, modeOk := true, tActivity := 0, tHealth := 0 }

/-- A concrete initialization environment where setBitrate is rejected. -/
def envBad : InitEnv := { bitrateOk := false, modeOk := false, tActivity := 0, tHealth := 0 }

/-- Replace payload byte `j` of a frame by `v`, leaving everything else
alone; used to state the single-byte-alteration properties. -/
def alterByte (f : CanFrame) (j v : Nat) : CanFrame :=
  { f with data := fun i => if i = j then v else f.data i }

/-- A concrete link state remembering the counter-7 self ping. -/
def sPing7 : LinkState :=
  { sBase with
      hasLastEspPing := true
      lastEspPingSent := buildPattern ESP_PING_ID 7 }

theorem initCan_snd_of_fail (env : InitEnv) (s : LinkState)
    (h : (env.bitrateOk && env.modeOk) = false) : (initCan env s).2 = s := by
  rcases env with ⟨b, m, ta, th⟩
  cases b <;> cases m <;> simp_all [initCan]

theorem framesEqual_iff (a b : CanFrame) :
    framesEqual a b = true ↔ framesEqSpec a b := by
  unfold framesEqual framesEqSpec
  by_cases h : a.can_dlc = b.can_dlc
  · simp [h, List.all_eq_true, List.mem_range]
  · simp [h]

/-- C8: for every identifier and every counter below 256, the built
pattern frame has length 8, byte0 the counter, byte1 its complement,
bytes 2 to 7 the fixed constants, patternMatches accepts it, and
patternMatches accepts exactly the frames of that shape. -/
theorem c8_pattern_roundtrip (id c : Nat) (hc : c < 256) :
    patternMatches (buildPattern id c) = true
    ∧ (buildPattern id c).can_dlc = 8
    ∧ (buildPattern id c).data 0 = c
    ∧ (buildPattern id c).data 1 = Nat.xor c 0xFF
    ∧ (buildPattern id c).data 2 = 0x55
    ∧ (buildPattern id c).data 3 = 0xAA
    ∧ (buildPattern id c).data 4 = 0xC3
    ∧ (buildPattern id c).data 5 = 0x3C
    ∧ (buildPattern id c).data 6 = 0x5A
    ∧ (buildPattern id c).data 7 = 0xA5
    ∧ (∀ f : CanFrame, patternMatches f = true ↔
        (f.can_dlc = 8 ∧ f.data 1 = (Nat.xor (f.data 0) 0xFF) % U8
          ∧ f.data 2 = 0x55 ∧ f.data 3 = 0xAA ∧ f.data 4 = 0xC3
          ∧ f.data 5 = 0x3C ∧ f.data 6 = 0x5A ∧ f.data 7 = 0xA5)) := by
  have hmod : c % U8 = c := Nat.mod_eq_of_lt (by simpa [U8] using hc)
  have hxor8 : Nat.xor c 0xFF < 2 ^ 8 :=
    Nat.xor_lt_two_pow (by simpa using hc) (by decide)
  have hxor : Nat.xor c 0xFF < 256 := by simpa using hxor8
  have hxmod : Nat.xor c 0xFF % U8 = Nat.xor c 0xFF :=
    Nat.mod_eq_of_lt (by simpa [U8] using hxor)
  refine ⟨?_, rfl, ?_, ?_, rfl, rfl, rfl, rfl, rfl, rfl, ?_⟩
  · simp [patternMatches, buildPattern]
  · simpa [buildPattern] using hmod
  · simp [buildPattern, hmod, hxmod]
  · intro f
    unfold patternMatches
    by_cases h : f.can_dlc = 8
    · simp [h, Bool.and_eq_true, beq_iff_eq, and_assoc]
    · simp [h]

theorem c8_witness : 7 < 256 ∧ patternMatches (buildPattern 0x123 7) = true :=
  ⟨by decide, (c8_pattern_roundtrip 0x123 7 (by decide)).1⟩

/-- C9: initCan is atomic on the link state: it succeeds exactly when
both configuration steps are accepted; on failure every link-state
variable is unchanged; on success the counters are zeroed, the presence
and pending flags cleared, the two timestamps refreshed to the supplied
clock readings, and nothing else is touched. -/
theorem c9_initCan_atomic (env : InitEnv) (s : LinkState) :
    ((initCan env s).1 = (env.bitrateOk && env.modeOk))
    ∧ ((initCan env s).1 = false → (initCan env s).2 = s)
    ∧ ((initCan env s).1 = true →
        (initCan env s).2.consecutiveSendErrors = 0
        ∧ (initCan env s).2.consecutivePassiveErrors = 0
        ∧ (initCan env s).2.hasLastEspPing = false
        ∧ (initCan env s).2.canIntPending = false
        ∧ (initCan env s).2.lastActivityMs = env.tActivity % U32
        ∧ (initCan env s).2.lastHealthCheckMs = env.tHealth % U32
        ∧ (initCan env s).2.lastEspPingSent = s.lastEspPingSent
        ∧ (initCan env s).2.espPingCounter = s.espPingCounter
        ∧ (initCan env s).2.lastPingMillis = s.lastPingMillis) := by
  rcases env with ⟨b, m, ta, th⟩
  cases b <;> cases m <;> simp [initCan]

theorem c9_witness :
    (initCan envBad sBase).2 = sBase
    ∧ (initCan envOk sBase).2.consecutiveSendErrors = 0 :=
  ⟨(c9_initCan_atomic envBad sBase).2.1 rfl,
   ((c9_initCan_atomic envOk sBase).2.2 rfl).1⟩

/-- C2: a due health poll that reads the bus-off bit set issues exactly
one reinitialization call on that very first occurrence, for every
state of the passive-error counter. -/
theorem c2_busoff_immediate (s : LinkState) (now flags : Nat) (env : InitEnv)
    (hdue : HEALTH_CHECK_PERIOD_MS ≤ sub32 now s.lastHealthCheckMs)
    (hbo : Nat.land flags EFLG_TXBO ≠ 0) :
    (handleHealth now flags env s).reinits = 1 := by
  have h1 : ¬ (sub32 now s.lastHealthCheckMs < HEALTH_CHECK_PERIOD_MS) := not_lt.mpr hdue
  simp [handleHealth, h1, hbo]

theorem c2_witness :
    HEALTH_CHECK_PERIOD_MS ≤ sub32 200 sBase.lastHealthCheckMs
    ∧ Nat.land 0x20 EFLG_TXBO ≠ 0
    ∧ (handleHealth 200 0x20 envOk sBase).reinits = 1 :=
  ⟨by decide, by decide, c2_busoff_immediate sBase 200 0x20 envOk (by decide) (by decide)⟩

/-- C4: with the send-error counter below the hard limit and more than
5000 ms elapsed since last activity, the stall check does nothing when
no send error is recorded; with at least one recorded send error it
makes exactly one reinitialization attempt, and a failed attempt leaves
the send-error counter unchanged (in particular not reset to 0). -/
theorem c4_soft_stall_path (s : LinkState) (now : Nat) (env : InitEnv)
    (hc : s.consecutiveSendErrors < ERROR_REINIT_LIMIT)
    (ht : ACTIVITY_TIMEOUT_MS < sub32 now s.lastActivityMs) :
    (s.consecutiveSendErrors = 0 → recoverIfStalled now env s = (s, 0))
    ∧ (0 < s.consecutiveSendErrors →
        (recoverIfStalled now env s).2 = 1
        ∧ ((env.bitrateOk && env.modeOk) = false →
            (recoverIfStalled now env s).1.consecutiveSendErrors = s.consecutiveSendErrors)) := by
  have h1 : ¬ (ERROR_REINIT_LIMIT ≤ s.consecutiveSendErrors) := not_le.mpr hc
  constructor
  · intro h0
    unfold recoverIfStalled
    rw [if_neg h1, if_neg]
    rintro ⟨-, hpos⟩
    omega
  · intro hpos
    have h2 : ACTIVITY_TIMEOUT_MS < sub32 now s.lastActivityMs ∧ 0 < s.consecutiveSendErrors :=
      ⟨ht, hpos⟩
    unfold recoverIfStalled
    rw [if_neg h1, if_pos h2]
    refine ⟨rfl, fun hfail => ?_⟩
    rw [initCan_snd_of_fail env s hfail]

theorem c4_witness :
    (recoverIfStalled 6000 envBad { sBase with consecutiveSendErrors := 2 }).2 = 1
    ∧ (recoverIfStalled 6000 envBad { sBase with consecutiveSendErrors := 2 }).1.consecutiveSendErrors = 2 :=
  ⟨((c4_soft_stall_path { sBase with consecutiveSendErrors := 2 } 6000 envBad
      (by decide) (by decide)).2 (by decide)).1,
   ((c4_soft_stall_path { sBase with consecutiveSendErrors := 2 } 6000 envBad
      (by decide) (by decide)).2 (by decide)).2 rfl⟩

/-- C3 counterexample: the stall-recovery check also triggers a
reinitialization with the counter at 1 (below 5) when more than 5000 ms
have elapsed since last activity, so it does not trigger exactly when
the counter has reached 5. -/
theorem c3_counterexample :
    (recoverIfStalled 6000 envOk { sBase with consecutiveSendErrors := 1 }).2 = 1
    ∧ { sBase with consecutiveSendErrors := 1 }.consecutiveSendErrors < 5 := by
  constructor
  · rfl
  · decide

/-- C3 (amended): a send attempt increments the consecutive-send-error
counter on failure (leaving the activity timestamp alone) and resets it
to 0 on success while refreshing the activity timestamp; the
stall-recovery check triggers a reinitialization call exactly when the
counter has reached 5 or when more than 5000 ms have elapsed since last
activity with at least one recorded send error; in particular five
consecutive send failures trigger it and four failures followed by one
success do not. -/
theorem c3_send_errors_and_stall :
    (∀ (f : CanFrame) (t : Nat) (s : LinkState),
        (sendFrame f false t s).consecutiveSendErrors = (s.consecutiveSendErrors + 1) % U8
        ∧ (sendFrame f false t s).lastActivityMs = s.lastActivityMs
        ∧ (sendFrame f true t s).consecutiveSendErrors = 0
        ∧ (sendFrame f true t s).lastActivityMs = t % U32)
    ∧ (∀ (now : Nat) (env : InitEnv) (s : LinkState),
        (recoverIfStalled now env s).2 = 1 ↔
          (ERROR_REINIT_LIMIT ≤ s.consecutiveSendErrors
            ∨ (ACTIVITY_TIMEOUT_MS < sub32 now s.lastActivityMs
                ∧ 0 < s.consecutiveSendErrors)))
    ∧ (∀ (g1 g2 g3 g4 g5 : CanFrame) (t1 t2 t3 t4 t5 now : Nat) (env : InitEnv)
        (s : LinkState), s.consecutiveSendErrors = 0 →
        (recoverIfStalled now env
          (sendFrame g5 false t5 (sendFrame g4 false t4 (sendFrame g3 false t3
            (sendFrame g2 false t2 (sendFrame g1 false t1 s)))))).2 = 1)
    ∧ (∀ (g1 g2 g3 g4 g5 : CanFrame) (t1 t2 t3 t4 t5 now : Nat) (env : InitEnv)
        (s : LinkState), s.consecutiveSendErrors = 0 →
        (recoverIfStalled now env
          (sendFrame g5 true t5 (sendFrame g4 false t4 (sendFrame g3 false t3
            (sendFrame g2 false t2 (sendFrame g1 false t1 s)))))).2 = 0) := by
  have hiff : ∀ (now : Nat) (env : InitEnv) (s : LinkState),
      (recoverIfStalled now env s).2 = 1 ↔
        (ERROR_REINIT_LIMIT ≤ s.consecutiveSendErrors
          ∨ (ACTIVITY_TIMEOUT_MS < sub32 now s.lastActivityMs
              ∧ 0 < s.consecutiveSendErrors)) := by
    intro now env s
    unfold recoverIfStalled
    by_cases h1 : ERROR_REINIT_LIMIT ≤ s.consecutiveSendErrors
    · rw [if_pos h1]
      rcases h : initCan env s with ⟨b, s2⟩
      cases b <;> simp [h1]
    · rw [if_neg h1]
      by_cases h2 : ACTIVITY_TIMEOUT_MS < sub32 now s.lastActivityMs
          ∧ 0 < s.consecutiveSendErrors
      · rw [if_pos h2]
        simp [h2]
      · rw [if_neg h2]
        simp [h1, h2]
  refine ⟨?_, hiff, ?_, ?_⟩
  · intro f t s
    refine ⟨rfl, rfl, rfl, rfl⟩
  · intro g1 g2 g3 g4 g5 t1 t2 t3 t4 t5 now env s h0
    rw [hiff]
    left
    simp [sendFrame, h0, U8, ERROR_REINIT_LIMIT]
  · intro g1 g2 g3 g4 g5 t1 t2 t3 t4 t5 now env s h0
    have hcnt : (sendFrame g5 true t5 (sendFrame g4 false t4 (sendFrame g3 false t3
        (sendFrame g2 false t2 (sendFrame g1 false t1 s))))).consecutiveSendErrors = 0 := rfl
    unfold recoverIfStalled
    rw [if_neg (by rw [hcnt]; decide),
      if_neg (by rintro ⟨-, hpos⟩; rw [hcnt] at hpos; exact absurd hpos (by decide))]

theorem c3_witness :
    sBase.consecutiveSendErrors = 0
    ∧ (recoverIfStalled 0 envOk
        (sendFrame frame0 false 0 (sendFrame frame0 false 0 (sendFrame frame0 false 0
          (sendFrame frame0 false 0 (sendFrame frame0 false 0 sBase)))))).2 = 1 :=
  ⟨rfl, (c3_send_errors_and_stall.2.2.1 frame0 frame0 frame0 frame0 frame0
      0 0 0 0 0 0 envOk sBase rfl)⟩

theorem health_passive_low (now flags : Nat) (env : InitEnv) (s : LinkState)
    (hdue : HEALTH_CHECK_PERIOD_MS ≤ sub32 now s.lastHealthCheckMs)
    (hbo : Nat.land flags EFLG_TXBO = 0)
    (hep : Nat.land flags (Nat.lor EFLG_TXEP EFLG_RXEP) ≠ 0)
    (hlow : (s.consecutivePassiveErrors + 1) % U8 < 3) :
    (handleHealth now flags env s).reinits = 0
    ∧ (handleHealth now flags env s).state.lastHealthCheckMs = now % U32
    ∧ (handleHealth now flags env s).state.consecutivePassiveErrors
        = (s.consecutivePassiveErrors + 1) % U8 := by
  have h1 : ¬ (sub32 now s.lastHealthCheckMs < HEALTH_CHECK_PERIOD_MS) := not_lt.mpr hdue
  have h3 : ¬ (3 ≤ (s.consecutivePassiveErrors + 1) % U8) := not_le.mpr hlow
  simp [handleHealth, h1, hbo, hep, h3]

theorem health_passive_fire (now flags : Nat) (env : InitEnv) (s : LinkState)
    (hdue : HEALTH_CHECK_PERIOD_MS ≤ sub32 now s.lastHealthCheckMs)
    (hbo : Nat.land flags EFLG_TXBO = 0)
    (hep : Nat.land flags (Nat.lor EFLG_TXEP EFLG_RXEP) ≠ 0)
    (hfire : 3 ≤ (s.consecutivePassiveErrors + 1) % U8) :
    (handleHealth now flags env s).reinits = 1 := by
  have h1 : ¬ (sub32 now s.lastHealthCheckMs < HEALTH_CHECK_PERIOD_MS) := not_lt.mpr hdue
  simp [handleHealth, h1, hbo, hep, hfire]

theorem health_clear (now flags : Nat) (env : InitEnv) (s : LinkState)
    (hdue : HEALTH_CHECK_PERIOD_MS ≤ sub32 now s.lastHealthCheckMs)
    (hbo : Nat.land flags EFLG_TXBO = 0)
    (hep0 : Nat.land flags (Nat.lor EFLG_TXEP EFLG_RXEP) = 0) :
    (handleHealth now flags env s).reinits = 0
    ∧ (handleHealth now flags env s).state.lastHealthCheckMs = now % U32
    ∧ (handleHealth now flags env s).state.consecutivePassiveErrors = 0 := by
  have h1 : ¬ (sub32 now s.lastHealthCheckMs < HEALTH_CHECK_PERIOD_MS) := not_lt.mpr hdue
  simp [handleHealth, h1, hbo, hep0]

/-- C1: starting with the passive-error counter at 0, three due health
polls whose error flags each have an error-passive bit (TXEP or RXEP)
set and bus-off clear issue exactly one reinitialization call over the
three polls; and a due poll with an error-passive bit set followed by a
due poll with both bits clear (bus-off also clear) issues none and
leaves the passive-error counter at 0. -/
theorem c1_passive_hysteresis
    (s : LinkState) (n1 n2 n3 f1 f2 f3 : Nat) (e1 e2 e3 : InitEnv)
    (hcpe : s.consecutivePassiveErrors = 0)
    (hd1 : HEALTH_CHECK_PERIOD_MS ≤ sub32 n1 s.lastHealthCheckMs)
    (hd2 : HEALTH_CHECK_PERIOD_MS ≤ sub32 n2 (n1 % U32))
    (hd3 : HEALTH_CHECK_PERIOD_MS ≤ sub32 n3 (n2 % U32))
    (hb1 : Nat.land f1 EFLG_TXBO = 0)
    (hb2 : Nat.land f2 EFLG_TXBO = 0)
    (hb3 : Nat.land f3 EFLG_TXBO = 0)
    (hp1 : Nat.land f1 (Nat.lor EFLG_TXEP EFLG_RXEP) ≠ 0)
    (hp2 : Nat.land f2 (Nat.lor EFLG_TXEP EFLG_RXEP) ≠ 0)
    (hp3 : Nat.land f3 (Nat.lor EFLG_TXEP EFLG_RXEP) ≠ 0)
    (s' : LinkState) (m1 m2 g1 g2 : Nat) (d1 d2 : InitEnv)
    (hcpe' : s'.consecutivePassiveErrors = 0)
    (hd1' : HEALTH_CHECK_PERIOD_MS ≤ sub32 m1 s'.lastHealthCheckMs)
    (hd2' : HEALTH_CHECK_PERIOD_MS ≤ sub32 m2 (m1 % U32))
    (hb1' : Nat.land g1 EFLG_TXBO = 0)
    (hp1' : Nat.land g1 (Nat.lor EFLG_TXEP EFLG_RXEP) ≠ 0)
    (hb2' : Nat.land g2 EFLG_TXBO = 0)
    (hp2' : Nat.land g2 (Nat.lor EFLG_TXEP EFLG_RXEP) = 0) :
    ((handleHealth n1 f1 e1 s).reinits
      + (handleHealth n2 f2 e2 (handleHealth n1 f1 e1 s).state).reinits
      + (handleHealth n3 f3 e3
          (handleHealth n2 f2 e2 (handleHealth n1 f1 e1 s).state).state).reinits = 1)
    ∧ ((handleHealth m1 g1 d1 s').reinits
        + (handleHealth m2 g2 d2 (handleHealth m1 g1 d1 s').state).reinits = 0)
    ∧ (handleHealth m2 g2 d2 (handleHealth m1 g1 d1 s').state).state.consecutivePassiveErrors
        = 0 := by
  obtain ⟨r1, l1, p1⟩ :=
    health_passive_low n1 f1 e1 s hd1 hb1 hp1 (by rw [hcpe]; decide)
  obtain ⟨r2, l2, p2⟩ :=
    health_passive_low n2 f2 e2 (handleHealth n1 f1 e1 s).state
      (by rw [l1]; exact hd2) hb2 hp2 (by rw [p1, hcpe]; decide)
  have r3 :=
    health_passive_fire n3 f3 e3 (handleHealth n2 f2 e2 (handleHealth n1 f1 e1 s).state).state
      (by rw [l2]; exact hd3) hb3 hp3 (by rw [p2, p1, hcpe]; decide)
  obtain ⟨r1', l1', p1'⟩ :=
    health_passive_low m1 g1 d1 s' hd1' hb1' hp1' (by rw [hcpe']; decide)
  obtain ⟨r2', l2', p2'⟩ :=
    health_clear m2 g2 d2 (handleHealth m1 g1 d1 s').state
      (by rw [l1']; exact hd2') hb2' hp2'
  refine ⟨?_, ?_, p2'⟩
  · rw [r1, r2, r3]
  · rw [r1', r2']

theorem c1_witness :
    ((handleHealth 200 0x10 envOk sBase).reinits
      + (handleHealth 400 0x08 envOk (handleHealth 200 0x10 envOk sBase).state).reinits
      + (handleHealth 600 0x18 envOk
          (handleHealth 400 0x08 envOk (handleHealth 200 0x10 envOk sBase).state).state).reinits
        = 1)
    ∧ ((handleHealth 200 0x10 envOk sBase).reinits
        + (handleHealth 400 0x00 envOk (handleHealth 200 0x10 envOk sBase).state).reinits = 0)
    ∧ (handleHealth 400 0x00 envOk
        (handleHealth 200 0x10 envOk sBase).state).state.consecutivePassiveErrors = 0 :=
  c1_passive_hysteresis sBase 200 400 600 0x10 0x08 0x18 envOk envOk envOk rfl
    (by decide) (by decide) (by decide) (by decide) (by decide) (by decide)
    (by decide) (by decide) (by decide)
    sBase 200 400 0x10 0x00 envOk envOk rfl
    (by decide) (by decide) (by decide) (by decide) (by decide) (by decide)

/-- C5: a frame received on the self-pong identifier logs MATCHED
exactly when a prior self ping is recorded and the frame equals it
byte-for-byte (equal declared lengths, identical payload over that
length), and logs MISMATCH otherwise; the counter-7 ping (byte0 7,
byte1 248, bytes 2-7 the fixed constants) received back on that
identifier logs MATCHED, and altering any single payload byte logs
MISMATCH. -/
theorem c5_selfpong_match :
    (∀ (s : LinkState) (f : CanFrame) (ok : Bool) (t : Nat), f.can_id = ESP_PONG_ID →
      (((processRxFrame f ok t s).logs = [LogEvent.matchedEsp] ↔
          (s.hasLastEspPing = true ∧ framesEqSpec s.lastEspPingSent f))
        ∧ ((processRxFrame f ok t s).logs = [LogEvent.mismatchEsp] ↔
          ¬ (s.hasLastEspPing = true ∧ framesEqSpec s.lastEspPingSent f))))
    ∧ (∀ (s : LinkState) (ok : Bool) (t : Nat),
        s.hasLastEspPing = true → s.lastEspPingSent = buildPattern ESP_PING_ID 7 →
        (processRxFrame { buildPattern ESP_PING_ID 7 with can_id := ESP_PONG_ID } ok t s).logs
          = [LogEvent.matchedEsp])
    ∧ (∀ (s : LinkState) (ok : Bool) (t j v : Nat),
        s.hasLastEspPing = true → s.lastEspPingSent = buildPattern ESP_PING_ID 7 →
        j < 8 → v ≠ (buildPattern ESP_PING_ID 7).data j →
        (processRxFrame
          (alterByte { buildPattern ESP_PING_ID 7 with can_id := ESP_PONG_ID } j v)
          ok t s).logs = [LogEvent.mismatchEsp])
    ∧ ((buildPattern ESP_PING_ID 7).data 0 = 7
        ∧ (buildPattern ESP_PING_ID 7).data 1 = 248
        ∧ (buildPattern ESP_PING_ID 7).data 2 = 0x55
        ∧ (buildPattern ESP_PING_ID 7).data 3 = 0xAA
        ∧ (buildPattern ESP_PING_ID 7).data 4 = 0xC3
        ∧ (buildPattern ESP_PING_ID 7).data 5 = 0x3C
        ∧ (buildPattern ESP_PING_ID 7).data 6 = 0x5A
        ∧ (buildPattern ESP_PING_ID 7).data 7 = 0xA5) := by
  have hA : ∀ (s : LinkState) (f : CanFrame) (ok : Bool) (t : Nat), f.can_id = ESP_PONG_ID →
      (((processRxFrame f ok t s).logs = [LogEvent.matchedEsp] ↔
          (s.hasLastEspPing = true ∧ framesEqSpec s.lastEspPingSent f))
        ∧ ((processRxFrame f ok t s).logs = [LogEvent.mismatchEsp] ↔
          ¬ (s.hasLastEspPing = true ∧ framesEqSpec s.lastEspPingSent f))) := by
    intro s f ok t hid
    unfold processRxFrame
    rw [if_pos hid]
    by_cases hcond : (s.hasLastEspPing && framesEqual s.lastEspPingSent f) = true
    · rw [if_pos hcond]
      rw [Bool.and_eq_true] at hcond
      have h : s.hasLastEspPing = true ∧ framesEqSpec s.lastEspPingSent f :=
        ⟨hcond.1, (framesEqual_iff _ _).1 hcond.2⟩
      simp [h]
    · rw [if_neg hcond]
      have h : ¬ (s.hasLastEspPing = true ∧ framesEqSpec s.lastEspPingSent f) := by
        rintro ⟨ha, hb⟩
        exact hcond (by rw [Bool.and_eq_true]; exact ⟨ha, (framesEqual_iff _ _).2 hb⟩)
      simp [h]
  refine ⟨hA, ?_, ?_, by decide⟩
  · intro s ok t hlast hping
    have hfe : framesEqSpec (buildPattern ESP_PING_ID 7)
        { buildPattern ESP_PING_ID 7 with can_id := ESP_PONG_ID } :=
      (framesEqual_iff _ _).1 (by decide)
    exact (hA s { buildPattern ESP_PING_ID 7 with can_id := ESP_PONG_ID } ok t rfl).1.mpr
      ⟨hlast, by rw [hping]; exact hfe⟩
  · intro s ok t j v hlast hping hj hv
    have hspec : ¬ framesEqSpec (buildPattern ESP_PING_ID 7)
        (alterByte { buildPattern ESP_PING_ID 7 with can_id := ESP_PONG_ID } j v) := by
      rintro ⟨-, hbytes⟩
      have hb := hbytes j hj
      simp [alterByte] at hb
      exact hv hb.symm
    exact (hA s (alterByte { buildPattern ESP_PING_ID 7 with can_id := ESP_PONG_ID } j v)
        ok t rfl).2.mpr (by rintro ⟨-, hsp⟩; rw [hping] at hsp; exact hspec hsp)

theorem c5_witness :
    sPing7.hasLastEspPing = true
    ∧ (processRxFrame { buildPattern ESP_PING_ID 7 with can_id := ESP_PONG_ID }
        true 0 sPing7).logs = [LogEvent.matchedEsp]
    ∧ (processRxFrame (alterByte { buildPattern ESP_PING_ID 7 with can_id := ESP_PONG_ID } 0 9)
        true 0 sPing7).logs = [LogEvent.mismatchEsp] :=
  ⟨rfl,
   c5_selfpong_match.2.1 sPing7 true 0 rfl rfl,
   c5_selfpong_match.2.2.1 sPing7 true 0 0 9 rfl rfl (by decide) (by decide)⟩

/-- C6: every frame received on the peer-ping identifier is answered by
exactly one sent frame, namely a copy of the received frame whose
identifier alone is changed to the designated pong identifier; length
and every payload byte of the response equal those of the request,
whether or not the request satisfied the verification pattern. -/
theorem c6_peer_ping_echo (f : CanFrame) (ok : Bool) (t : Nat) (s : LinkState)
    (hid : f.can_id = PI_PING_ID) :
    (processRxFrame f ok t s).sent = [{ f with can_id := PI_PONG_ID }]
    ∧ ({ f with can_id := PI_PONG_ID } : CanFrame).can_id = PI_PONG_ID
    ∧ ({ f with can_id := PI_PONG_ID } : CanFrame).can_dlc = f.can_dlc
    ∧ (∀ i, ({ f with can_id := PI_PONG_ID } : CanFrame).data i = f.data i) := by
  have hne : ¬ (f.can_id = ESP_PONG_ID) := by rw [hid]; decide
  unfold processRxFrame
  rw [if_neg hne, if_pos hid]
  exact ⟨rfl, rfl, rfl, fun i => rfl⟩

theorem c6_witness :
    ({ frame0 with can_id := PI_PING_ID } : CanFrame).can_id = PI_PING_ID
    ∧ (processRxFrame { frame0 with can_id := PI_PING_ID } true 0 sBase).sent
        = [{ { frame0 with can_id := PI_PING_ID } with can_id := PI_PONG_ID }] :=
  ⟨rfl, (c6_peer_ping_echo { frame0 with can_id := PI_PING_ID } true 0 sBase rfl).1⟩

theorem drainLoop_map_snd (buf : List CanFrame) (envs : Nat → RxEnv) :
    ∀ (k : Nat) (s : LinkState), ((drainLoop buf envs k s).2).map Prod.snd = buf := by
  induction buf with
  | nil => intro k s; rfl
  | cons f rest ih =>
    intro k s
    simp only [drainLoop, List.map_cons]
    rw [ih]

theorem drainLoop_map_fst (buf : List CanFrame) (envs : Nat → RxEnv) :
    ∀ (k : Nat) (s : LinkState), ((drainLoop buf envs k s).2).map Prod.fst
      = (List.range buf.length).map (fun j => (envs (k + j)).timeMs % U32) := by
  induction buf with
  | nil => intro k s; rfl
  | cons f rest ih =>
    intro k s
    simp only [drainLoop, List.map_cons, List.length_cons, List.range_succ_eq_map,
      List.map_map]
    rw [ih]
    refine congrArg₂ List.cons (by rw [Nat.add_zero]) ?_
    apply List.map_congr_left
    intro a ha
    simp only [Function.comp_apply]
    have hidx : k + 1 + a = k + a.succ := by omega
    rw [hidx]

theorem processRxFrame_hasLast (f : CanFrame) (ok : Bool) (t : Nat) (s : LinkState) :
    (processRxFrame f ok t s).state.hasLastEspPing = s.hasLastEspPing := by
  unfold processRxFrame sendFrame
  split_ifs <;> rfl

theorem drainLoop_hasLast (buf : List CanFrame) (envs : Nat → RxEnv) :
    ∀ (k : Nat) (s : LinkState),
      (drainLoop buf envs k s).1.hasLastEspPing = s.hasLastEspPing := by
  induction buf with
  | nil => intro k s; rfl
  | cons f rest ih =>
    intro k s
    simp only [drainLoop]
    rw [ih, processRxFrame_hasLast]

/-- C7: if frames are buffered in the controller and the drain cycle is
entered (pending signal set, or the polled data-ready check reporting
data), a single cycle dispatches every buffered frame to the protocol
engine in arrival order, each exactly once, leaves the buffer empty,
and refreshes the activity timestamp (to that iteration's clock
reading) before each dispatch. -/
theorem c7_drain_dispatch (w : World) (chkData : Bool) (envs : Nat → RxEnv)
    (hstart : w.link.canIntPending = true ∨ chkData = true) :
    ((rxPhase chkData envs w).2).map Prod.snd = w.rxBuf
    ∧ (rxPhase chkData envs w).1.rxBuf = []
    ∧ ((rxPhase chkData envs w).2).map Prod.fst
        = (List.range w.rxBuf.length).map (fun j => (envs j).timeMs % U32) := by
  have hc : (w.link.canIntPending || chkData) = true := by
    rcases hstart with h | h <;> simp [h]
  unfold rxPhase
  rw [if_pos hc]
  refine ⟨drainLoop_map_snd _ _ _ _, rfl, ?_⟩
  simpa using drainLoop_map_fst w.rxBuf envs 0 { w.link with canIntPending := false }

theorem c7_witness :
    (({ link := sBase, rxBuf := [frame0, { frame0 with can_id := 1 }, { frame0 with can_id := 2 }] } : World).link.canIntPending = true
      ∨ true = true)
    ∧ ((rxPhase true (fun _ => { timeMs := 5, sendOk := true, sendTime := 6 })
        { link := sBase, rxBuf := [frame0, { frame0 with can_id := 1 }, { frame0 with can_id := 2 }] }).2).map Prod.snd
      = [frame0, { frame0 with can_id := 1 }, { frame0 with can_id := 2 }]
    ∧ (rxPhase true (fun _ => { timeMs := 5, sendOk := true, sendTime := 6 })
        { link := sBase, rxBuf := [frame0, { frame0 with can_id := 1 }, { frame0 with can_id := 2 }] }).1.rxBuf
      = [] :=
  ⟨Or.inr rfl,
   (c7_drain_dispatch
      { link := sBase, rxBuf := [frame0, { frame0 with can_id := 1 }, { frame0 with can_id := 2 }] }
      true (fun _ => { timeMs := 5, sendOk := true, sendTime := 6 }) (Or.inr rfl)).1,
   (c7_drain_dispatch
      { link := sBase, rxBuf := [frame0, { frame0 with can_id := 1 }, { frame0 with can_id := 2 }] }
      true (fun _ => { timeMs := 5, sendOk := true, sendTime := 6 }) (Or.inr rfl)).2.1⟩

theorem initCan_of_fail (env : InitEnv) (s : LinkState)
    (h : (env.bitrateOk && env.modeOk) = false) : initCan env s = (false, s) := by
  rcases env with ⟨b, m, ta, th⟩
  cases b <;> cases m <;> simp_all [initCan]

theorem handleHealth_hasLast_of_fail (now flags : Nat) (env : InitEnv) (s : LinkState)
    (hfail : (env.bitrateOk && env.modeOk) = false) :
    (handleHealth now flags env s).state.hasLastEspPing = s.hasLastEspPing := by
  simp only [handleHealth]
  split_ifs <;> simp [initCan_of_fail _ _ hfail]

theorem recover_hasLast_of_fail (now : Nat) (env : InitEnv) (s : LinkState)
    (hfail : (env.bitrateOk && env.modeOk) = false) :
    (recoverIfStalled now env s).1.hasLastEspPing = s.hasLastEspPing := by
  unfold recoverIfStalled
  rw [initCan_of_fail env s hfail]
  split_ifs <;> rfl

/-- C10: when the ping period has elapsed, the loop records the built
self ping and sets the presence flag whether the send succeeded or
failed; no send, receive processing, or drain ever changes the presence
flag, and a health poll or stall check can clear a set presence flag
only when its reinitialization succeeded (both configuration calls
accepted). -/
theorem c10_ping_record_invariant :
    (∀ (s : LinkState) (now : Nat) (ok : Bool) (t : Nat),
        PING_PERIOD_MS ≤ sub32 now s.lastPingMillis →
        (pingPhase now ok t s).hasLastEspPing = true
        ∧ (pingPhase now ok t s).lastEspPingSent = buildPattern ESP_PING_ID s.espPingCounter)
    ∧ (∀ (s : LinkState) (now : Nat) (ok : Bool) (t : Nat),
        s.hasLastEspPing = true → (pingPhase now ok t s).hasLastEspPing = true)
    ∧ (∀ (f : CanFrame) (ok : Bool) (t : Nat) (s : LinkState),
        (sendFrame f ok t s).hasLastEspPing = s.hasLastEspPing)
    ∧ (∀ (f : CanFrame) (ok : Bool) (t : Nat) (s : LinkState),
        (processRxFrame f ok t s).state.hasLastEspPing = s.hasLastEspPing)
    ∧ (∀ (buf : List CanFrame) (envs : Nat → RxEnv) (k : Nat) (s : LinkState),
        (drainLoop buf envs k s).1.hasLastEspPing = s.hasLastEspPing)
    ∧ (∀ (now flags : Nat) (env : InitEnv) (s : LinkState),
        s.hasLastEspPing = true →
        (handleHealth now flags env s).state.hasLastEspPing = false →
        env.bitrateOk = true ∧ env.modeOk = true)
    ∧ (∀ (now : Nat) (env : InitEnv) (s : LinkState),
        s.hasLastEspPing = true →
        (recoverIfStalled now env s).1.hasLastEspPing = false →
        env.bitrateOk = true ∧ env.modeOk = true) := by
  refine ⟨?_, ?_, ?_, processRxFrame_hasLast, fun buf envs => drainLoop_hasLast buf envs, ?_, ?_⟩
  · intro s now ok t hdue
    unfold pingPhase
    rw [if_pos hdue]
    exact ⟨rfl, rfl⟩
  · intro s now ok t hlast
    unfold pingPhase
    split_ifs
    · rfl
    · exact hlast
  · intro f ok t s
    unfold sendFrame
    split_ifs <;> rfl
  · intro now flags env s hl hflip
    by_cases hok : (env.bitrateOk && env.modeOk) = true
    · rw [Bool.and_eq_true] at hok
      exact hok
    · exfalso
      simp only [Bool.not_eq_true] at hok
      rw [handleHealth_hasLast_of_fail now flags env s hok, hl] at hflip
      exact Bool.noConfusion hflip
  · intro now env s hl hflip
    by_cases hok : (env.bitrateOk && env.modeOk) = true
    · rw [Bool.and_eq_true] at hok
      exact hok
    · exfalso
      simp only [Bool.not_eq_true] at hok
      rw [recover_hasLast_of_fail now env s hok, hl] at hflip
      exact Bool.noConfusion hflip

theorem c10_witness :
    PING_PERIOD_MS ≤ sub32 1000 sBase.lastPingMillis
    ∧ (pingPhase 1000 false 0 sBase).hasLastEspPing = true
    ∧ (pingPhase 1000 false 0 sBase).lastEspPingSent
        = buildPattern ESP_PING_ID sBase.espPingCounter :=
  ⟨by decide,
   (c10_ping_record_invariant.1 sBase 1000 false 0 (by decide)).1,
   (c10_ping_record_invariant.1 sBase 1000 false 0 (by decide)).2⟩

end CanTest
